import Mathlib

/-!
Verification of the wiki-maintenance scripts repository (pywikibot userscripts).

Each Python function relevant to the claims is shallowly embedded as an
executable Lean definition.  External effects (the MediaWiki store, the file
system, `time.sleep`) are modelled as explicit oracles and event traces.
String primitives (`split`, `strip`, `lower`, substring membership,
`replace`) are re-implemented over `List Char` so that every definition
reduces inside the kernel; they mirror the semantics of the corresponding
Python `str` methods on the ASCII inputs the scripts use.
-/

namespace Userscripts

/-! ## String primitives (kernel-evaluable models of Python str methods) -/

/-- Model of Python list/str prefix test: `l₂` starts with `l₁`. -/
def startsWithChars : List Char → List Char → Bool
  | [], _ => true
  | _ :: _, [] => false
  | a :: as, b :: bs => a == b && startsWithChars as bs

/-- Model of Python `needle in haystack` (substring containment) on char lists. -/
def containsChars : List Char → List Char → Bool
  | n, [] => n.isEmpty
  | n, c :: ts => startsWithChars n (c :: ts) || containsChars n ts

/-- Python `needle in haystack` for strings. -/
def substrB (needle haystack : String) : Bool :=
  containsChars needle.toList haystack.toList

/-- Fuelled worker for Python `str.split(sep)` with a non-empty separator:
scans left to right, cutting at each non-overlapping occurrence of `sep`.
The fuel is an upper bound on the number of characters consumed; callers pass
the length of the input, which suffices because every step consumes at least
one character. -/
def splitGo (sep : List Char) : Nat → List Char → List Char → List (List Char)
  | _, [], acc => [acc.reverse]
  | 0, l, acc => [acc.reverse ++ l]
  | Nat.succ f, c :: rest, acc =>
    if startsWithChars sep (c :: rest) && !sep.isEmpty then
      acc.reverse :: splitGo sep f (List.drop sep.length (c :: rest)) []
    else
      splitGo sep f rest (c :: acc)

/-- Python `s.split(sep)` for a non-empty separator. -/
def splitOnStr (s sep : String) : List String :=
  (splitGo sep.toList s.toList.length s.toList []).map String.mk

/-- Python `str.strip()`: drop leading and trailing whitespace. -/
def trimStr (s : String) : String :=
  String.mk (((s.toList.dropWhile Char.isWhitespace).reverse.dropWhile
    Char.isWhitespace).reverse)

/-- Python `str.lower()` (ASCII-faithful). -/
def lowerStr (s : String) : String :=
  String.mk (s.toList.map Char.toLower)

/-- Fuelled worker for Python `str.replace(pat, repl)`: replaces every
non-overlapping occurrence of a non-empty `pat`, scanning left to right. -/
def replaceGo (pat repl : List Char) : Nat → List Char → List Char
  | _, [] => []
  | 0, l => l
  | Nat.succ f, c :: rest =>
    if startsWithChars pat (c :: rest) && !pat.isEmpty then
      repl ++ replaceGo pat repl f (List.drop pat.length (c :: rest))
    else
      c :: replaceGo pat repl f rest

/-- Python `s.replace(pat, repl)` for a non-empty pattern. -/
def replaceStr (s pat repl : String) : String :=
  String.mk (replaceGo pat.toList repl.toList s.toList.length s.toList)

/-! ## QueryEvaluator — search.py

`matches_operator(term, text, case_sensitive)` (search.py lines 96-133):
splits the expression on the literal `~OR~` operator when present, each part
on `~AND~` when present; parts are stripped and empty ones dropped; a bare
term is a single substring test, case-folded via `.lower()` when the search
is case-insensitive. -/

/-- One substring test of the evaluator: `sub in text`, lowering both sides
when the search is case-insensitive (search.py lines 109-121, 125-133). -/
def termMatch (case_sensitive : Bool) (sub text : String) : Bool :=
  if case_sensitive then substrB sub text
  else substrB (lowerStr sub) (lowerStr text)

/-- search.py line 105: `[part.strip() for part in term.split("~OR~") if part.strip()]`. -/
def splitOrParts (term : String) : List String :=
  ((splitOnStr term "~OR~").map trimStr).filter (fun p => p ≠ "")

/-- search.py lines 108 and 124: `[sub.strip() for sub in part.split("~AND~") if sub.strip()]`. -/
def splitAndParts (part : String) : List String :=
  ((splitOnStr part "~AND~").map trimStr).filter (fun p => p ≠ "")

/-- Evaluation of a single OR-clause: the body repeated at search.py
lines 107-121 and 123-133 — an `~AND~` conjunction of substring tests when
the operator is present, otherwise one substring test. -/
def clauseHolds (case_sensitive : Bool) (text clause : String) : Bool :=
  if substrB "~AND~" clause then
    (splitAndParts clause).all (fun sub => termMatch case_sensitive sub text)
  else
    termMatch case_sensitive clause text

/-- search.py lines 96-133 (`matches_operator`).  The Python for-loop over OR
parts with an early `return True` is the `List.any` fold. -/
def matches_operator (term text : String) (case_sensitive : Bool) : Bool :=
  if substrB "~OR~" term then
    (splitOrParts term).any (clauseHolds case_sensitive text)
  else
    clauseHolds case_sensitive text term

/-- The top-level OR clauses of an expression under the code's grammar. -/
def clausesOf (expr : String) : List String :=
  if substrB "~OR~" expr then splitOrParts expr else [expr]

/-- The AND terms of one clause under the code's grammar. -/
def termsOf (clause : String) : List String :=
  if substrB "~AND~" clause then splitAndParts clause else [clause]

/-- search.py lines 146-169 (`search_page`).  The compiled country-code
regex of the task tuple is modelled as the boolean predicate `ccMatch`. -/
def search_page (title text : String) (search_terms_list : List String)
    (case_sensitive : Bool) (ignore_strings : List String)
    (ignore_country_codes : Bool) (ccMatch : String → Bool) : Option String :=
  if ignore_country_codes && ccMatch title then none
  else if ignore_strings.any
      (fun ig => ig != "" && matches_operator ig text case_sensitive) then none
  else if search_terms_list.any
      (fun t => matches_operator t text case_sensitive) then some title
  else none

/-! ## Commit-phase events

Mutation calls, skips and sleeps performed by the serial commit loops are
recorded as an explicit trace. -/

/-- An observable action of a commit loop. -/
inductive CEvent where
  | deleteCall (title : String)
  | saveCall (title : String)
  | moveCall (title newTitle : String)
  | skipNotFound (title : String)
  | sleepEv (seconds : Nat)
  deriving DecidableEq

/-- Whether an event is a mutation call against the store. -/
def isMutEv : CEvent → Bool
  | .deleteCall _ => true
  | .saveCall _ => true
  | .moveCall _ _ => true
  | _ => false

/-- Whether an event is a rate-limit sleep. -/
def isSleepEv : CEvent → Bool
  | .sleepEv _ => true
  | _ => false

/-- Worker for `delaysSeparated`: the flag records whether a mutation call
has been issued since the last sleep. -/
def mutationsSeparated : Bool → List CEvent → Bool
  | _, [] => true
  | pending, e :: rest =>
    if isMutEv e then
      if pending then false else mutationsSeparated true rest
    else if isSleepEv e then mutationsSeparated false rest
    else mutationsSeparated pending rest

/-- The delay discipline the specification claims: between any two mutation
calls of the trace at least one sleep occurs. -/
def delaysSeparated (evs : List CEvent) : Bool :=
  mutationsSeparated false evs

/-! ## delete_pages.py — SafetyGate, scan phase, deletion committer -/

/-- One entry of a page's revision history.  `user` is `none` when the
editing username is hidden or missing (pywikibot yields no user), and may
also be the empty string; the Python check `if editor and ...` skips both. -/
structure Revision where
  user : Option String
  deriving DecidableEq

/-- Oracle for the MediaWiki store as delete_pages.py observes it.
`revisions` returns `Except.error` when fetching the history raises.
`references` models `getReferences(follow_redirects=False,
filter_redirects=True)`; `redirectTarget` models
`isRedirectPage`/`getRedirectTarget` (`none`: not a redirect, or the
per-page check raised and the loop skips it). -/
structure DPStore where
  pageExists : String → Bool
  revisions : String → Except String (List Revision)
  references : String → List String
  redirectTarget : String → Option String

/-- delete_pages.py line 70: `allowed_editors = {"CalvyBot", "Calvy"}`. -/
def allowed_editors : List String := ["CalvyBot", "Calvy"]

/-- delete_pages.py line 84: `if editor and editor not in allowed_editors`. -/
def editorDisallowed : Option String → Bool
  | none => false
  | some e => e != "" && !(allowed_editors.contains e)

/-- delete_pages.py lines 65-91 (`check_page_edit_safety`): `False` for a
non-existent page, `False` when fetching the history raises, otherwise
`True` iff no revision has a non-empty editor outside the allow-list. -/
def check_page_edit_safety (s : DPStore) (page_title : String) : Bool :=
  if !(s.pageExists page_title) then false
  else
    match s.revisions page_title with
    | .error _ => false
    | .ok revs => revs.all (fun r => !(editorDisallowed r.user))

/-- delete_pages.py lines 26-62 (`find_redirects_to_page`): of the referring
redirect pages, keep those whose redirect target is exactly the page. -/
def find_redirects_to_page (s : DPStore) (target_page_title : String) : List String :=
  (s.references target_page_title).filter (fun r =>
    match s.redirectTarget r with
    | some tgt => tgt == target_page_title
    | none => false)

/-- Classification returned by the scan phase for one title. -/
inductive ScanStatus where
  | safe
  | skippedUnsafe
  | scanError
  deriving DecidableEq

/-- delete_pages.py lines 94-122 (`process_page_for_redirects`): the result
triple together with the titles the call pushes onto the deletion queue
(the page itself, then each discovered redirect; nothing when unsafe). -/
def process_page_for_redirects (s : DPStore) (page_title : String) :
    (String × List String × ScanStatus) × List String :=
  if !(check_page_edit_safety s page_title) then
    ((page_title, [], ScanStatus.skippedUnsafe), [])
  else
    let redirects := find_redirects_to_page s page_title
    ((page_title, redirects, ScanStatus.safe), page_title :: redirects)

/-- delete_pages.py lines 346-372: the try/except around `future.result()`
converts an exception escaping the per-title worker into the ERROR case for
that title (`redirect_data[page_title] = []`). -/
def poolBoundary (f : String → Except String (String × List String × ScanStatus))
    (title : String) : String × List String × ScanStatus :=
  match f title with
  | .ok r => r
  | .error _ => (title, [], ScanStatus.scanError)

/-- Phase-1 scan outcomes: one per submitted future, i.e. one per input
title (delete_pages.py lines 335-372).  As-completed delivery permutes the
order but not the multiset; the submission order is used here. -/
def phase1Outcomes (f : String → Except String (String × List String × ScanStatus))
    (titles : List String) : List (String × List String × ScanStatus) :=
  titles.map (poolBoundary f)

/-- Outcome of the store's `delete` call (delete_pages.py lines 144-167):
which `except` arm, if any, the call lands in. -/
inductive DelOutcome where
  | success
  | noPage
  | locked
  | notSaved (msg : String)
  | permission
  | otherErr (msg : String)
  deriving DecidableEq

/-- Store oracle for the deletion committer. -/
structure DelStore where
  pageExists : String → Bool
  delOutcome : String → DelOutcome

/-- delete_pages.py lines 125-172 (`process_deletion_queue`): for each
queued title, re-check existence; an absent page is logged as skipped (the
`skipNotFound` event) and no delete is issued; otherwise the delete call is
issued and classified — success increments `successful_deletions`,
`NoPageError` is skipped, every other exception increments
`failed_deletions`.  No sleep is ever performed in this loop. -/
def process_deletion_queue (s : DelStore) : List String → Nat × Nat × List CEvent
  | [] => (0, 0, [])
  | t :: rest =>
    let r := process_deletion_queue s rest
    if !(s.pageExists t) then
      (r.1, r.2.1, CEvent.skipNotFound t :: r.2.2)
    else
      match s.delOutcome t with
      | .success => (r.1 + 1, r.2.1, CEvent.deleteCall t :: r.2.2)
      | .noPage => (r.1, r.2.1, CEvent.deleteCall t :: r.2.2)
      | .locked => (r.1, r.2.1 + 1, CEvent.deleteCall t :: r.2.2)
      | .notSaved _ => (r.1, r.2.1 + 1, CEvent.deleteCall t :: r.2.2)
      | .permission => (r.1, r.2.1 + 1, CEvent.deleteCall t :: r.2.2)
      | .otherErr _ => (r.1, r.2.1 + 1, CEvent.deleteCall t :: r.2.2)

/-! ## redirectdictionary.py — scan loop without a boundary catch

`main` (lines 51-62) calls `future.result()` with no surrounding
try/except: an exception escaping `process_article` (e.g. from the
`pywikibot.Page` constructor, which sits outside that function's internal
try) propagates and ends the collection loop. -/

/-- redirectdictionary.py lines 55-62: sequential model of the result
collection; an uncaught per-title exception aborts the remaining titles. -/
def rdCollect (f : String → Except String (String × List String)) :
    List String → Except String (List (String × List String))
  | [] => .ok []
  | t :: rest =>
    match f t with
    | .error c => .error c
    | .ok r =>
      match rdCollect f rest with
      | .ok rs => .ok (r :: rs)
      | .error c => .error c

/-! ## movepages.py — move committer -/

/-- Oracle for `page.move`: whether the move call succeeds (movepages.py
lines 5-13 catch any exception and return `False`). -/
structure MoveStore where
  moveOutcome : String → String → Bool

/-- movepages.py line 28: `page_name.split("/")[-1]`. -/
def lastSlashComponent (s : String) : String :=
  (splitOnStr s "/").getLastD s

/-- movepages.py lines 28-29: the computed destination title. -/
def newTitleFor (page_name : String) : String :=
  lastSlashComponent page_name ++ " (scripts item parameter)"

/-- movepages.py lines 25-34 (the commit loop of `main`): each line issues a
move call; `time.sleep(6)` runs only when `move_page` returned `True`. -/
def movepages_commit (s : MoveStore) : List String → List CEvent
  | [] => []
  | line :: rest =>
    let pn := trimStr line
    let nt := newTitleFor pn
    if s.moveOutcome pn nt then
      CEvent.moveCall pn nt :: CEvent.sleepEv 6 :: movepages_commit s rest
    else
      CEvent.moveCall pn nt :: movepages_commit s rest

/-! ## findandreplace.py — edit committer -/

/-- Store oracle for the edit committer: existence and current text. -/
structure FRStore where
  pageExists : String → Bool
  pageText : String → String

/-- findandreplace.py lines 45-46: apply each mapping in order with
`str.replace`. -/
def applyMappings (mappings : List (String × String)) (text : String) : String :=
  mappings.foldl (fun acc pr => replaceStr acc pr.1 pr.2) text

/-- findandreplace.py lines 64-68: the mappings dictionary of `main`, in
insertion order. -/
def fr_mappings : List (String × String) :=
  [("[[Carbonated Water (fluid)|carbonated water]]",
    "[[Seltzer Water (fluid)|seltzer water]]"),
   ("[[Carbonated Water (fluid|carbonated water]]",
    "[[Seltzer Water (fluid)|seltzer water]]"),
   ("[[Tainted Water (fluid)|tainted water]]",
    "[[Water (Tainted) (fluid)|tainted water]]")]

/-- findandreplace.py lines 34-57 (`process_edit_queue`): for each queued
title, if the page exists and the mappings change its text, issue the save;
the loop contains no `time.sleep` at all. -/
def process_edit_queue (s : FRStore) (mappings : List (String × String)) :
    List String → List CEvent
  | [] => []
  | t :: rest =>
    if s.pageExists t then
      let text := s.pageText t
      let ntext := applyMappings mappings text
      if ntext != text then
        CEvent.saveCall t :: process_edit_queue s mappings rest
      else
        process_edit_queue s mappings rest
    else
      process_edit_queue s mappings rest

/-! ## languageredirects.py — dedup filter and redirect creation -/

/-- languageredirects.py line 10: the illegal title characters. -/
def illegal_chars : List Char :=
  ['\x7b', '\x7d', '[', ']', '<', '>', '|', ':', '?', '*', '"', '\\', '/',
   '#', '@', '&', '%']

/-- languageredirects.py lines 9-11 (`has_illegal_chars`). -/
def has_illegal_chars (title : String) : Bool :=
  illegal_chars.any (fun c => title.toList.contains c)

/-- languageredirects.py line 59: keep an entry iff its value occurs exactly
once among all the dictionary's values. -/
def unique_redirect_dict (d : List (String × String)) : List (String × String) :=
  d.filter (fun kv => (d.map Prod.snd).count kv.2 == 1)

/-- languageredirects.py line 35: the redirect page body. -/
def redirectText (title : String) : String :=
  "#REDIRECT [[" ++ title ++ "]]"

/-- languageredirects.py lines 29-38 (`create_redirect`), over a store
modelled as an association list from title to text: skip targets with
illegal characters, skip existing targets, otherwise save the redirect page
and sleep 10 seconds.  Returns the new store and the event trace. -/
def create_redirect (st : List (String × String)) (title target : String) :
    List (String × String) × List CEvent :=
  if has_illegal_chars target then (st, [])
  else if (st.lookup target).isSome then (st, [])
  else ((target, redirectText title) :: st,
    [CEvent.saveCall target, CEvent.sleepEv 10])

/-! ## search.py — cache persistence -/

/-- File-system operations `save_cache` (search.py lines 33-36) performs:
`open(cache_file, "w")` truncates the durable file in place, `json.dump`
streams the serialization into it, then the handle is closed.  No temporary
path and no rename are involved. -/
inductive FsOp where
  | openTrunc (path : String)
  | writeChunk (path : String) (data : String)
  | renameOp (src dst : String)
  | closeOp (path : String)
  deriving DecidableEq

/-- Whether an operation is a rename (the publish step of a
write-temp-then-publish scheme). -/
def isRenameOp : FsOp → Bool
  | .renameOp _ _ => true
  | _ => false

/-- The path an operation touches as its destination. -/
def fsOpPath : FsOp → String
  | .openTrunc p => p
  | .writeChunk p _ => p
  | .renameOp _ dst => dst
  | .closeOp p => p

/-- The operation trace of `save_cache cache cache_file` with `serialized`
the JSON text `json.dump` produces. -/
def save_cache_ops (cache_file serialized : String) : List FsOp :=
  [FsOp.openTrunc cache_file, FsOp.writeChunk cache_file serialized,
   FsOp.closeOp cache_file]

/-- Durable cache content after running `save_cache` against a file that
previously held `old` (`none`: absent).  `failAt = some k` models an
exception raised after `k` characters of the serialization were streamed;
the file was already truncated by `open(..., "w")`. -/
def save_cache_result (old : Option String) (serialized : String)
    (failAt : Option Nat) : Option String :=
  match failAt with
  | none => some serialized
  | some k => some (String.mk (serialized.toList.take k))

/-- Modelled from the spec: the write-temp-then-publish persistence §4.1 and
§5 describe (write the serialization to a temporary location, then publish
it over the durable file in one step), which is absent from src/search.py.
A failure before the publish leaves the previous snapshot. -/
def atomic_persist_spec (old : Option String) (serialized : String)
    (failAt : Option Nat) : Option String :=
  match failAt with
  | none => some serialized
  | some _ => old

/-! ## Concrete stores and inputs used by witnesses and counterexamples -/

/-- A store whose page `Doc` exists and was edited by `Calvy` and by the
unauthorized `Rogue`. -/
def dpSampleStore : DPStore where
  pageExists := fun t => t == "Doc"
  revisions := fun t =>
    if t == "Doc" then Except.ok [⟨some "Calvy"⟩, ⟨some "Rogue"⟩]
    else Except.error "missing"
  references := fun _ => []
  redirectTarget := fun _ => none

/-- A store whose page `Hid` exists with a hidden-user revision, an
empty-user revision and a `CalvyBot` revision. -/
def dpHiddenStore : DPStore where
  pageExists := fun t => t == "Hid"
  revisions := fun t =>
    if t == "Hid" then Except.ok [⟨none⟩, ⟨some ""⟩, ⟨some "CalvyBot"⟩]
    else Except.error "missing"
  references := fun _ => []
  redirectTarget := fun _ => none

/-- A deletion store in which `Gone` vanished after scanning and every
delete call succeeds. -/
def delSampleStore : DelStore where
  pageExists := fun t => t != "Gone"
  delOutcome := fun _ => DelOutcome.success

/-- A per-title worker of the redirect-dictionary scan that raises on
title `B`. -/
def rdThrowF : String → Except String (String × List String) :=
  fun t => if t == "B" then Except.error "invalid title" else Except.ok (t, [])

/-- A per-title worker of phase 1 that raises on title `B`. -/
def p1ThrowF : String → Except String (String × List String × ScanStatus) :=
  fun t =>
    if t == "B" then Except.error "boom" else Except.ok (t, [], ScanStatus.safe)

/-- An edit-committer store in which every page exists and every page's text
is changed by the third mapping. -/
def frSampleStore : FRStore where
  pageExists := fun _ => true
  pageText := fun _ => "[[Tainted Water (fluid)|tainted water]]"

/-- A move store in which the move of `bad` fails and every other move
succeeds. -/
def mvSampleStore : MoveStore where
  moveOutcome := fun pn _ => pn != "bad"

/-- A move store in which every move succeeds. -/
def mvAllOkStore : MoveStore where
  moveOutcome := fun _ _ => true

/-! ## Claim theorems -/

/-- Shared helper: a revision passes the editor check iff its recorded
editor, when present and non-empty, is in the allow-list. -/
theorem editorDisallowed_eq_false_iff (u : Option String) :
    editorDisallowed u = false ↔
      ∀ e, u = some e → e ≠ "" → e ∈ allowed_editors := by
  cases u with
  | none => simp [editorDisallowed]
  | some e =>
    by_cases he : e = ""
    · simp [editorDisallowed, he]
    · simp [editorDisallowed, he, List.elem_iff]

/-- Shared helper: `clauseHolds` agrees with the declarative AND reading of
one clause. -/
theorem clauseHolds_iff (cs : Bool) (text c : String) :
    clauseHolds cs text c = true ↔
      ∀ t ∈ termsOf c, termMatch cs t text = true := by
  unfold clauseHolds termsOf
  by_cases h : substrB "~AND~" c = true
  · simp [h, List.all_eq_true]
  · simp [h]

/-- C4: `matches_operator` evaluates the expression as a top-level OR of
clauses split on `~OR~`, each clause an AND of terms split on `~AND~`, a
bare term being one substring test; it returns true iff some clause has all
of its terms as substrings of the text, lowering text and terms when the
search is case-insensitive; and the four concrete examples of the spec
evaluate as stated. -/
theorem c4_matches_operator_grammar :
    (∀ (expr text : String) (cs : Bool),
      matches_operator expr text cs = true ↔
        ∃ c ∈ clausesOf expr, ∀ t ∈ termsOf c, termMatch cs t text = true)
    ∧ matches_operator "a~OR~b" "a" false = true
    ∧ matches_operator "a~AND~b" "a" false = false
    ∧ matches_operator "A~AND~b" "aB" false = true
    ∧ matches_operator "a~AND~b" "AB" true = false := by
  refine ⟨?_, by decide, by decide, by decide, by decide⟩
  intro expr text cs
  unfold matches_operator clausesOf
  by_cases h : substrB "~OR~" expr = true
  · simp [h, List.any_eq_true, clauseHolds_iff]
  · simp [h, clauseHolds_iff]

/-- C5: whenever some non-empty ignore-expression matches the page text
under the operator grammar and the run's case-sensitivity, `search_page`
reports no match for the title, whatever the search expressions say. -/
theorem c5_ignore_excludes (title text : String) (terms : List String)
    (cs : Bool) (ignores : List String) (ccFlag : Bool)
    (ccMatch : String → Bool) (ig : String) (hmem : ig ∈ ignores)
    (hne : ig ≠ "") (hmatch : matches_operator ig text cs = true) :
    search_page title text terms cs ignores ccFlag ccMatch = none := by
  unfold search_page
  by_cases h1 : (ccFlag && ccMatch title) = true
  · simp [h1]
  · have hany :
        (ignores.any fun i => i != "" && matches_operator i text cs) = true := by
      rw [List.any_eq_true]
      exact ⟨ig, hmem, by simp [hne, hmatch]⟩
    simp [h1, hany]

/-- C5 witness: the ignore string `a` matches the text `bab`, so the page is
excluded although the search term `b` also matches. -/
theorem c5_witness :
    search_page "T" "bab" ["b"] false ["a"] false (fun _ => false) = none :=
  c5_ignore_excludes "T" "bab" ["b"] false ["a"] false (fun _ => false) "a"
    (by decide) (by decide) (by decide)

/-- C6: the uniqueness filter of languageredirects retains an entry iff its
target value occurs exactly once among all collected target values, and on
the candidates P1↦X, P2↦X, P3↦Y exactly P3↦Y is retained. -/
theorem c6_unique_filter :
    (∀ (d : List (String × String)) (k v : String),
      (k, v) ∈ unique_redirect_dict d ↔
        ((k, v) ∈ d ∧ (d.map Prod.snd).count v = 1))
    ∧ unique_redirect_dict [("P1", "X"), ("P2", "X"), ("P3", "Y")] =
        [("P3", "Y")] := by
  refine ⟨?_, by decide⟩
  intro d k v
  unfold unique_redirect_dict
  rw [List.mem_filter]
  simp

/-- Shared helper: full characterization of the safety gate's verdict. -/
theorem check_safe_iff (s : DPStore) (t : String) :
    check_page_edit_safety s t = true ↔
      (s.pageExists t = true ∧
        ∃ revs, s.revisions t = Except.ok revs ∧
          ∀ r ∈ revs, ∀ e, r.user = some e → e ≠ "" → e ∈ allowed_editors) := by
  unfold check_page_edit_safety
  by_cases hex : s.pageExists t = true
  · cases hrev : s.revisions t with
    | error c => simp [hex, hrev]
    | ok revs =>
      simp only [hex, Bool.not_true, Bool.false_eq_true, if_false, hrev,
        true_and]
      rw [List.all_eq_true]
      constructor
      · intro h
        refine ⟨revs, rfl, fun r hr => ?_⟩
        have hh := h r hr
        rw [Bool.not_eq_true', editorDisallowed_eq_false_iff] at hh
        exact hh
      · rintro ⟨revs', heq, hall⟩
        cases heq
        intro r hr
        rw [Bool.not_eq_true', editorDisallowed_eq_false_iff]
        exact hall r hr
  · simp [hex]

/-- C2: the safety gate classifies a title safe iff the page exists, its
revision history was retrieved, and every revision's recorded non-empty
editor is in the allow-list; unretrievable history or one editor outside
the allow-list yields unsafe, and an unsafe title never adds anything to
the deletion queue. -/
theorem c2_safety_gate :
    (∀ (s : DPStore) (t : String),
      check_page_edit_safety s t = true ↔
        (s.pageExists t = true ∧
          ∃ revs, s.revisions t = Except.ok revs ∧
            ∀ r ∈ revs, ∀ e, r.user = some e → e ≠ "" → e ∈ allowed_editors))
    ∧ (∀ (s : DPStore) (t : String), check_page_edit_safety s t = false →
        (process_page_for_redirects s t).2 = []) := by
  refine ⟨check_safe_iff, ?_⟩
  intro s t h
  unfold process_page_for_redirects
  simp [h]

/-- C2 witness: page `Doc` of the sample store has one `Rogue` revision next
to a `Calvy` revision, is classified unsafe, and contributes nothing to the
deletion queue. -/
theorem c2_witness :
    check_page_edit_safety dpSampleStore "Doc" = false ∧
    (process_page_for_redirects dpSampleStore "Doc").2 = [] :=
  ⟨by decide, c2_safety_gate.2 dpSampleStore "Doc" (by decide)⟩

/-- C10: with the page existing and the history retrieved, revisions whose
recorded editor is missing or empty are ignored by the gate — a history of
such revisions next to allow-listed editors is still safe — and an unsafe
verdict requires some revision with a non-empty editor outside the
allow-list. -/
theorem c10_hidden_editors_ignored (s : DPStore) (t : String)
    (revs : List Revision) (hex : s.pageExists t = true)
    (hrev : s.revisions t = Except.ok revs) :
    ((∀ r ∈ revs, r.user = none ∨ r.user = some "" ∨
        ∃ e ∈ allowed_editors, r.user = some e) →
      check_page_edit_safety s t = true)
    ∧ (check_page_edit_safety s t = false →
        ∃ r ∈ revs, ∃ e, r.user = some e ∧ e ≠ "" ∧ e ∉ allowed_editors) := by
  constructor
  · intro h
    rw [check_safe_iff]
    refine ⟨hex, revs, hrev, fun r hr e heq hne => ?_⟩
    rcases h r hr with h0 | h0 | ⟨e', he', h0⟩
    · rw [h0] at heq; cases heq
    · rw [h0] at heq; cases heq; exact absurd rfl hne
    · rw [h0] at heq; cases heq; exact he'
  · intro h
    by_contra hc
    push_neg at hc
    have hsafe : check_page_edit_safety s t = true := by
      rw [check_safe_iff]
      exact ⟨hex, revs, hrev, hc⟩
    rw [hsafe] at h
    cases h

/-- C10 witness: page `Hid` has a hidden-user revision and an empty-user
revision next to a `CalvyBot` revision and is still classified safe. -/
theorem c10_witness :
    check_page_edit_safety dpHiddenStore "Hid" = true :=
  (c10_hidden_editors_ignored dpHiddenStore "Hid"
    [⟨none⟩, ⟨some ""⟩, ⟨some "CalvyBot"⟩] (by decide) (by rfl)).1
    (by decide)

/-- Shared helper: the deletion committer's trace adds exactly one event per
queued title — a delete call when the page exists, a skipped-not-found log
otherwise. -/
theorem pdq_events_cons (s : DelStore) (t : String) (rest : List String) :
    (process_deletion_queue s (t :: rest)).2.2 =
      (if s.pageExists t then CEvent.deleteCall t else CEvent.skipNotFound t)
        :: (process_deletion_queue s rest).2.2 := by
  by_cases h : s.pageExists t = true
  · cases ho : s.delOutcome t <;> simp [process_deletion_queue, h, ho]
  · rw [Bool.not_eq_true] at h
    simp [process_deletion_queue, h]

/-- C8: a queued title whose page is absent at commit time is logged as
skipped-not-found, both counters (successes and failures) are left
unchanged, no delete call is issued for it, and the committer processes the
remaining queue; moreover this committer's trace never contains a sleep. -/
theorem c8_precheck_skip :
    (∀ (s : DelStore) (t : String) (q : List String),
      s.pageExists t = false →
      process_deletion_queue s (t :: q) =
        ((process_deletion_queue s q).1, (process_deletion_queue s q).2.1,
         CEvent.skipNotFound t :: (process_deletion_queue s q).2.2))
    ∧ (∀ (s : DelStore) (q : List String),
        (process_deletion_queue s q).2.2.all (fun e => !(isSleepEv e)) = true) := by
  constructor
  · intro s t q h
    simp [process_deletion_queue, h]
  · intro s q
    induction q with
    | nil => rfl
    | cons t rest ih =>
      rw [pdq_events_cons, List.all_cons]
      have hh : (!(isSleepEv (if s.pageExists t then CEvent.deleteCall t
          else CEvent.skipNotFound t))) = true := by
        by_cases h : s.pageExists t = true <;> simp [h, isSleepEv]
      rw [hh, ih]
      rfl

/-- C8 witness: `Gone` vanished between scan and commit; the run skips it
without a delete call, still deletes `Keep`, and counts one success and
zero failures. -/
theorem c8_witness :
    process_deletion_queue delSampleStore ["Gone", "Keep"] =
      (1, 0, [CEvent.skipNotFound "Gone", CEvent.deleteCall "Keep"]) :=
  (c8_precheck_skip.1 delSampleStore "Gone" ["Keep"] (by decide)).trans
    (by decide)

/-- C3 counterexample: in redirectdictionary's collection loop the boundary
does not catch — with a worker that raises on title `B`, the run over
`[A, B, C]` aborts instead of producing three outcomes. -/
theorem c3_counterexample :
    rdCollect rdThrowF ["A", "B", "C"] = Except.error "invalid title" ∧
    (rdCollect rdThrowF ["A", "B", "C"]).isOk = false := by
  exact ⟨by rfl, by rfl⟩

/-- C3 amended: in delete_pages phase 1 the scan yields exactly one outcome
per input title, an exception from the per-title worker is converted at the
pool boundary into the error outcome for that title, and the outcome at
each position depends only on the worker's behaviour at that title; in
redirectdictionary's loop, by contrast, a raising worker aborts the
remaining titles. -/
theorem c3_amended :
    (∀ (f : String → Except String (String × List String × ScanStatus))
      (titles : List String),
      (phase1Outcomes f titles).length = titles.length)
    ∧ (∀ (f : String → Except String (String × List String × ScanStatus))
        (t c : String), f t = Except.error c →
        poolBoundary f t = (t, [], ScanStatus.scanError))
    ∧ (∀ (f g : String → Except String (String × List String × ScanStatus))
        (titles : List String) (i : Nat),
        (∀ t, titles.get? i = some t → f t = g t) →
        (phase1Outcomes f titles).get? i = (phase1Outcomes g titles).get? i)
    ∧ (∀ (f : String → Except String (String × List String)) (t : String)
        (rest : List String) (c : String), f t = Except.error c →
        rdCollect f (t :: rest) = Except.error c) := by
  refine ⟨?_, ?_, ?_, ?_⟩
  · intro f titles
    exact List.length_map titles (poolBoundary f)
  · intro f t c h
    simp [poolBoundary, h]
  · intro f g titles i h
    unfold phase1Outcomes
    rw [List.get?_map, List.get?_map]
    cases ht : titles.get? i with
    | none => rfl
    | some t =>
      have hfg := h t ht
      simp [poolBoundary, hfg]
  · intro f t rest c h
    simp [rdCollect, h]

/-- C3 witness: with the phase-1 worker that raises on `B`, the run over
`[A, B, C]` still yields three outcomes, `B`'s being the converted error
outcome. -/
theorem c3_witness :
    (phase1Outcomes p1ThrowF ["A", "B", "C"]).length = 3 ∧
    poolBoundary p1ThrowF "B" = ("B", [], ScanStatus.scanError) ∧
    rdCollect rdThrowF ("B" :: ["C"]) = Except.error "invalid title" :=
  ⟨c3_amended.1 p1ThrowF ["A", "B", "C"],
   c3_amended.2.1 p1ThrowF "B" "boom" (by rfl),
   c3_amended.2.2.2 rdThrowF "B" ["C"] "invalid title" (by rfl)⟩

/-- C1 counterexample: the findandreplace committer issues three consecutive
save calls with no sleep between them, and the movepages committer issues a
failed move directly followed by the next move with no sleep — the
configured delay does not elapse between mutation calls. -/
theorem c1_counterexample :
    process_edit_queue frSampleStore fr_mappings ["A", "B", "C"] =
      [CEvent.saveCall "A", CEvent.saveCall "B", CEvent.saveCall "C"] ∧
    delaysSeparated
      (process_edit_queue frSampleStore fr_mappings ["A", "B", "C"]) = false ∧
    delaysSeparated (movepages_commit mvSampleStore ["bad", "ok"]) = false := by
  exact ⟨by decide, by decide, by decide⟩

/-- C1 amended: the delay discipline is per-committer — movepages sleeps the
fixed 6-second delay only after an item whose move call succeeded, an item
whose call failed gets no delay, and findandreplace's process_edit_queue
sleeps after no item at all (its trace is mutation calls only); the
no-two-mutations-without-delay guarantee holds for movepages runs in which
every move succeeds, and the languageredirects committer sleeps 10 seconds
after each save it issues. -/
theorem c1_amended :
    (∀ (s : MoveStore) (lines : List String),
      (∀ l ∈ lines, s.moveOutcome (trimStr l) (newTitleFor (trimStr l)) = true) →
      delaysSeparated (movepages_commit s lines) = true)
    ∧ (∀ (s : MoveStore) (line : String) (rest : List String),
        s.moveOutcome (trimStr line) (newTitleFor (trimStr line)) = false →
        movepages_commit s (line :: rest) =
          CEvent.moveCall (trimStr line) (newTitleFor (trimStr line)) ::
            movepages_commit s rest)
    ∧ (∀ (s : FRStore) (mappings : List (String × String)) (q : List String),
        (process_edit_queue s mappings q).all isMutEv = true)
    ∧ (∀ (st : List (String × String)) (title target : String),
        delaysSeparated (create_redirect st title target).2 = true) := by
  refine ⟨?_, ?_, ?_, ?_⟩
  · intro s lines h
    induction lines with
    | nil => rfl
    | cons l rest ih =>
      have hl := h l (List.mem_cons_self l rest)
      have ihr := ih (fun x hx => h x (List.mem_cons_of_mem l hx))
      simp only [movepages_commit, hl, if_true]
      simpa [delaysSeparated, mutationsSeparated, isMutEv, isSleepEv] using ihr
  · intro s line rest h
    simp [movepages_commit, h]
  · intro s mappings q
    induction q with
    | nil => rfl
    | cons t rest ih =>
      by_cases hex : s.pageExists t = true
      · by_cases hch :
          (applyMappings mappings (s.pageText t) != s.pageText t) = true
        · simp [process_edit_queue, hex, hch, List.all_cons, isMutEv, ih]
        · rw [Bool.not_eq_true] at hch
          simp [process_edit_queue, hex, hch, ih]
      · rw [Bool.not_eq_true] at hex
        simp [process_edit_queue, hex, ih]
  · intro st title target
    unfold create_redirect
    by_cases h1 : has_illegal_chars target = true
    · simp [h1, delaysSeparated, mutationsSeparated]
    · by_cases h2 : (st.lookup target).isSome = true
      · simp [h1, h2, delaysSeparated, mutationsSeparated]
      · simp [h1, h2, delaysSeparated, mutationsSeparated, isMutEv, isSleepEv]

/-- C1 witness: a movepages run in which every move succeeds keeps the delay
between any two mutation calls. -/
theorem c1_witness :
    delaysSeparated (movepages_commit mvAllOkStore ["a/b", "c", "d"]) = true :=
  c1_amended.1 mvAllOkStore ["a/b", "c", "d"] (by decide)

/-- C7 counterexample: save_cache truncates the durable cache file in place;
a failure after zero characters of the new serialization leaves an empty
file — the previously published snapshot `OLDDATA` is not preserved, unlike
the write-temp-then-publish behaviour the claim describes. -/
theorem c7_counterexample :
    save_cache_result (some "OLDDATA") "NEWDATA" (some 0) = some "" ∧
    save_cache_result (some "OLDDATA") "NEWDATA" (some 0) ≠ some "OLDDATA" ∧
    save_cache_result (some "OLDDATA") "NEWDATA" (some 0) ≠
      atomic_persist_spec (some "OLDDATA") "NEWDATA" (some 0) := by
  exact ⟨by decide, by decide, by decide⟩

/-- C7 amended: save_cache writes the serialization directly to the cache
file — every file-system operation it performs targets the cache file
itself and none is a rename, so there is no temporary location and no
publish step; on success the file holds the new serialization, and a
failure after k characters leaves exactly the first k characters of the new
serialization rather than the previous snapshot. -/
theorem c7_amended :
    (∀ (cache_file serialized : String),
      (save_cache_ops cache_file serialized).all
        (fun op => !(isRenameOp op) && (fsOpPath op == cache_file)) = true)
    ∧ (∀ (old : Option String) (serialized : String),
        save_cache_result old serialized none = some serialized)
    ∧ (∀ (old : Option String) (serialized : String) (k : Nat),
        save_cache_result old serialized (some k) =
          some (String.mk (serialized.toList.take k))) := by
  refine ⟨?_, fun _ _ => rfl, fun _ _ _ => rfl⟩
  intro f s
  simp [save_cache_ops, isRenameOp, fsOpPath, List.all_cons]

/-- C9: create_redirect never overwrites — a target that already exists in
the store or contains an illegal title character leaves the store unchanged
with no save call issued; only when the target has no illegal character and
does not exist is a save issued, creating the redirect text (followed by
the 10-second sleep). -/
theorem c9_no_overwrite (st : List (String × String)) (title target : String) :
    ((has_illegal_chars target = true ∨ (st.lookup target).isSome = true) →
      create_redirect st title target = (st, []))
    ∧ (has_illegal_chars target = false → (st.lookup target).isSome = false →
        create_redirect st title target =
          ((target, redirectText title) :: st,
           [CEvent.saveCall target, CEvent.sleepEv 10])) := by
  constructor
  · rintro (h | h) <;> simp [create_redirect, h]
  · intro h1 h2
    simp [create_redirect, h1, h2]

/-- C9 witness: an existing target `Exists` is left untouched with no save
call; the fresh target `New` gets exactly the redirect save and the sleep. -/
theorem c9_witness :
    create_redirect [("Exists", "x")] "Src" "Exists" = ([("Exists", "x")], []) ∧
    create_redirect [] "Src" "New" =
      ([("New", redirectText "Src")],
       [CEvent.saveCall "New", CEvent.sleepEv 10]) :=
  ⟨(c9_no_overwrite [("Exists", "x")] "Src" "Exists").1 (Or.inr (by decide)),
   (c9_no_overwrite [] "Src" "New").2 (by decide) (by decide)⟩

end Userscripts
